import Mathlib

/-!
Verification of the AASHTO 1993 pavement-design calculator (files `SN.py` and
`SN1.py`).  The numeric core consists of

* `get_zr`          — reliability → standard normal deviate lookup (both files),
* `calculate_w18`   — the AASHTO 1993 design-equation evaluator (`SN1.py`),
* `aashto_equation` — the residual form of the same equation (`SN.py`),
* `solve_for_sn`    — the bisection solver (`SN1.py`),
* `sn_provided` / `contribution_percentages` — the layer-capacity arithmetic.

Floating-point arithmetic is modelled over `ℝ`; `np.log10` is `Real.logb 10`
and `x ** y` on positive bases is real `rpow`.  Note that in the Python code
`np.log10` of a non-positive argument yields `nan`/`-inf` with a warning and
never raises, so the `try/except` in `calculate_w18` is dead code for real
inputs and the evaluator is modelled as a total function (Mathlib's `logb`
takes the junk value 0 at non-positive arguments).
-/

namespace PavementSN

open Real

/-- The keys of the `zr_values` dict of `get_zr` (`SN.py` lines 80-84,
`SN1.py` lines 79-83). -/
def zr_table_keys : List ℝ :=
  [50, 60, 70, 75, 80, 85, 90, 95, 99, 99.9]

/-- `get_zr` from both source files: `zr_values.get(reliability, -1.645)` —
lookup of the exact key in the dict literal, with the silent default
`-1.645` when the key is absent. -/
noncomputable def get_zr (reliability : ℝ) : ℝ :=
  if reliability = 50 then 0.000
  else if reliability = 60 then -0.253
  else if reliability = 70 then -0.524
  else if reliability = 75 then -0.674
  else if reliability = 80 then -0.841
  else if reliability = 85 then -1.037
  else if reliability = 90 then -1.282
  else if reliability = 95 then -1.645
  else if reliability = 99 then -2.327
  else if reliability = 99.9 then -3.090
  else -1.645

/-- `calculate_w18` (`SN1.py` lines 87-102): the AASHTO 1993 design equation,
returning W18 in raw axle-load units.  The constant `4.2 - 1.5` is kept as
written in the source. -/
noncomputable def calculate_w18 (sn zr so delta_psi mr : ℝ) : ℝ :=
  (10 : ℝ) ^ (zr * so
      + (9.36 * Real.logb 10 (sn + 1) - 0.20)
      + Real.logb 10 (delta_psi / (4.2 - 1.5))
          / (0.40 + 1094 / (sn + 1) ^ (5.19 : ℝ))
      + (2.32 * Real.logb 10 mr - 8.07))

/-- `aashto_equation` (`SN.py` lines 88-101): the same terms, returning the
difference between the computed W18 and the target `w18 * 1e6`. -/
noncomputable def aashto_equation (sn w18 zr so delta_psi mr : ℝ) : ℝ :=
  (10 : ℝ) ^ (zr * so
      + (9.36 * Real.logb 10 (sn + 1) - 0.20)
      + Real.logb 10 (delta_psi / (4.2 - 1.5))
          / (0.40 + 1094 / (sn + 1) ^ (5.19 : ℝ))
      + (2.32 * Real.logb 10 mr - 8.07))
    - w18 * 1000000

/-- The design equation exactly as the specification writes it, with the
denominator constant `2.7` already folded.  Spec-side definition used to
compare against `calculate_w18`. -/
noncomputable def aashto_w18_formula (sn zr so delta_psi mr : ℝ) : ℝ :=
  (10 : ℝ) ^ (zr * so + 9.36 * Real.logb 10 (sn + 1) - 0.20
      + Real.logb 10 (delta_psi / 2.7) / (0.40 + 1094 / (sn + 1) ^ (5.19 : ℝ))
      + 2.32 * Real.logb 10 mr - 8.07)

/-- Which return statement ended the bisection loop of `solve_for_sn`:
`converged` is the early return at the tolerance test (`SN1.py` line 127),
`maxIter` is the fall-through return after the loop (`SN1.py` line 135). -/
inductive BisectExit
  | converged
  | maxIter
deriving DecidableEq

/-- The loop of `solve_for_sn` (`SN1.py` lines 115-135), instrumented with the
exit kind.  Fuel counts the remaining iterations of `range(max_iterations)`;
with zero iterations the Python code would return an unbound `sn_mid`
(`none` here).  The evaluator never returns `None` for real inputs (numpy
does not raise on out-of-domain logs), so that branch does not appear. -/
noncomputable def bisectLoop (f : ℝ → ℝ) (target tol : ℝ) :
    ℕ → ℝ → ℝ → Option (ℝ × BisectExit)
  | 0, _, _ => none
  | n + 1, sn_low, sn_high =>
      let sn_mid := (sn_low + sn_high) / 2
      let w18_calc := f sn_mid
      if |w18_calc - target| < target * tol then some (sn_mid, BisectExit.converged)
      else if n = 0 then some (sn_mid, BisectExit.maxIter)
      else if w18_calc < target then bisectLoop f target tol n sn_mid sn_high
      else bisectLoop f target tol n sn_low sn_mid

/-- One unfolding step of `bisectLoop`. -/
theorem bisectLoop_succ (f : ℝ → ℝ) (target tol : ℝ) (n : ℕ) (sn_low sn_high : ℝ) :
    bisectLoop f target tol (n + 1) sn_low sn_high =
      (if |f ((sn_low + sn_high) / 2) - target| < target * tol then
        some ((sn_low + sn_high) / 2, BisectExit.converged)
      else if n = 0 then some ((sn_low + sn_high) / 2, BisectExit.maxIter)
      else if f ((sn_low + sn_high) / 2) < target then
        bisectLoop f target tol n ((sn_low + sn_high) / 2) sn_high
      else bisectLoop f target tol n sn_low ((sn_low + sn_high) / 2)) := rfl

/-- Whenever the loop exits through the early return (`converged`), the value
it returns satisfies the tolerance test of `SN1.py` line 126. -/
theorem bisectLoop_converged_sound (f : ℝ → ℝ) (target tol : ℝ) :
    ∀ (n : ℕ) (lo hi v : ℝ),
      bisectLoop f target tol n lo hi = some (v, BisectExit.converged) →
      |f v - target| < target * tol := by
  intro n
  induction n with
  | zero =>
      intro lo hi v h
      simp [bisectLoop] at h
  | succ n ih =>
      intro lo hi v h
      rw [bisectLoop_succ] at h
      split_ifs at h with h1 h2 h3
      · simp only [Option.some.injEq, Prod.mk.injEq] at h
        exact h.1 ▸ h1
      · simp at h
      · exact ih _ _ _ h
      · exact ih _ _ _ h

/-- If `f` stays below `target - target * tol` on the whole bracket, every
iteration fails the tolerance test and moves the low bound up, so the loop
spends all its fuel and falls through to the final `return sn_mid`. -/
theorem bisectLoop_exhausts (f : ℝ → ℝ) (target tol hi : ℝ) (htol : 0 ≤ target * tol) :
    ∀ (n : ℕ) (lo : ℝ), lo ≤ hi →
      (∀ x, lo ≤ x → x ≤ hi → f x < target - target * tol) →
      ∃ v, bisectLoop f target tol (n + 1) lo hi = some (v, BisectExit.maxIter) := by
  intro n
  induction n with
  | zero =>
      intro lo hlo hf
      have hmid1 : lo ≤ (lo + hi) / 2 := by linarith
      have hmid2 : (lo + hi) / 2 ≤ hi := by linarith
      have hw := hf _ hmid1 hmid2
      have hnc : ¬ |f ((lo + hi) / 2) - target| < target * tol := by
        intro habs
        rw [abs_lt] at habs
        linarith [habs.1]
      exact ⟨(lo + hi) / 2, by rw [bisectLoop_succ, if_neg hnc, if_pos rfl]⟩
  | succ n ih =>
      intro lo hlo hf
      have hmid1 : lo ≤ (lo + hi) / 2 := by linarith
      have hmid2 : (lo + hi) / 2 ≤ hi := by linarith
      have hw := hf _ hmid1 hmid2
      have hnc : ¬ |f ((lo + hi) / 2) - target| < target * tol := by
        intro habs
        rw [abs_lt] at habs
        linarith [habs.1]
      have hlt : f ((lo + hi) / 2) < target := by linarith
      obtain ⟨v, hv⟩ :=
        ih ((lo + hi) / 2) hmid2 (fun x hx1 hx2 => hf x (le_trans hmid1 hx1) hx2)
      refine ⟨v, ?_⟩
      rw [bisectLoop_succ, if_neg hnc, if_neg (Nat.succ_ne_zero n), if_pos hlt]
      exact hv

/-- `solve_for_sn` (`SN1.py` lines 105-135) with the exit kind kept: target
converted to raw units by `* 1e6`, initial bracket `[0.1, 15.0]`. -/
noncomputable def solve_for_snI (w18_target zr so delta_psi mr tolerance : ℝ)
    (max_iterations : ℕ) : Option (ℝ × BisectExit) :=
  bisectLoop (fun sn => calculate_w18 sn zr so delta_psi mr)
    (w18_target * 1000000) tolerance max_iterations 0.1 15

/-- `solve_for_sn` exactly as the Python function returns it: the bare
midpoint (the exit kind is not part of the return value). -/
noncomputable def solve_for_sn (w18_target zr so delta_psi mr tolerance : ℝ)
    (max_iterations : ℕ) : Option ℝ :=
  (solve_for_snI w18_target zr so delta_psi mr tolerance max_iterations).map Prod.fst

/-- `sn_provided` (`SN1.py` line 228): provided structural number of the
three-layer section. -/
def sn_provided (a1 d1 a2 d2 m2 a3 d3 m3 : ℝ) : ℝ :=
  a1 * d1 + a2 * d2 * m2 + a3 * d3 * m3

/-- The adequacy test of `SN1.py` line 242: provided SN at least required SN. -/
def design_adequate (provided required : ℝ) : Prop :=
  provided ≥ required

/-- The per-layer percentage column of `contribution_data` (`SN1.py` lines
257-261): each layer term divided by `sn_provided`, times 100. -/
noncomputable def contribution_percentages (a1 d1 a2 d2 m2 a3 d3 m3 : ℝ) : List ℝ :=
  [a1 * d1 / sn_provided a1 d1 a2 d2 m2 a3 d3 m3 * 100,
   a2 * d2 * m2 / sn_provided a1 d1 a2 d2 m2 a3 d3 m3 * 100,
   a3 * d3 * m3 / sn_provided a1 d1 a2 d2 m2 a3 d3 m3 * 100]

/-- The evaluator is always strictly positive (it is a power of 10). -/
theorem calculate_w18_pos (sn zr so delta_psi mr : ℝ) :
    0 < calculate_w18 sn zr so delta_psi mr :=
  Real.rpow_pos_of_pos (by norm_num) _

/-- C2: for every `sn > -1`, `delta_psi > 0`, `mr > 0` and any `zr`, `so`, the
evaluator `calculate_w18` agrees exactly with the AASHTO 1993 reference
formula of the specification (the source writes the serviceability constant
as `4.2 - 1.5`, the spec as `2.7`). -/
theorem calculate_w18_matches_spec_formula (sn zr so delta_psi mr : ℝ)
    (h1 : sn > -1) (h2 : delta_psi > 0) (h3 : mr > 0) :
    calculate_w18 sn zr so delta_psi mr = aashto_w18_formula sn zr so delta_psi mr := by
  unfold calculate_w18 aashto_w18_formula
  norm_num
  ring_nf

/-- Witness for C2 at `sn = 0`, `zr = 0`, `so = 0`, `delta_psi = 1`, `mr = 1`. -/
theorem calculate_w18_matches_spec_formula_witness :
    calculate_w18 0 0 0 1 1 = aashto_w18_formula 0 0 0 1 1 :=
  calculate_w18_matches_spec_formula 0 0 0 1 1 (by norm_num) (by norm_num) (by norm_num)

/-- C10: the residual evaluator of `SN.py` and the direct evaluator of
`SN1.py` embed the same design equation: for every `sn > -1`,
`delta_psi > 0`, `mr > 0` and any `w18`, `zr`, `so`,
`aashto_equation sn w18 ... = calculate_w18 sn ... - w18 * 1e6`. -/
theorem aashto_equation_eq_calculate_w18_sub (sn w18 zr so delta_psi mr : ℝ)
    (h1 : sn > -1) (h2 : delta_psi > 0) (h3 : mr > 0) :
    aashto_equation sn w18 zr so delta_psi mr =
      calculate_w18 sn zr so delta_psi mr - w18 * 1000000 := by
  unfold aashto_equation calculate_w18
  ring

/-- Witness for C10 at `sn = 0`, `w18 = 5`, `zr = 0`, `so = 0`,
`delta_psi = 1`, `mr = 1`. -/
theorem aashto_equation_eq_calculate_w18_sub_witness :
    aashto_equation 0 5 0 0 1 1 = calculate_w18 0 0 0 1 1 - 5 * 1000000 :=
  aashto_equation_eq_calculate_w18_sub 0 5 0 0 1 1 (by norm_num) (by norm_num) (by norm_num)

/-- C7: the reliability resolver silently returns the default `-1.645` for a
non-tabulated input.  `65` is not a key of the table, yet `get_zr 65` is the
same `-1.645` that the tabulated reliability `95` yields — refuting the claim
that non-tabulated inputs are not given a silent default. -/
theorem get_zr_silent_default :
    (65 : ℝ) ∉ zr_table_keys ∧ get_zr 65 = -1.645 ∧ get_zr 95 = -1.645 := by
  refine ⟨?_, ?_, ?_⟩
  · unfold zr_table_keys
    norm_num
  · unfold get_zr
    norm_num
  · unfold get_zr
    norm_num

/-- C6: at `delta_psi = 0` (with `sn = 0`, `zr = 0`, `so = 0`, `mr = 1`) the
evaluator does not signal any domain error: both `calculate_w18` and
`aashto_equation` flow through and return an ordinary (strictly positive in
the first case) real number.  In the Python sources `np.log10(0.0)` merely
warns and yields `-inf` (so `SN1.py` returns `0.0` and `SN.py` a plain
float), and no `DomainError` exists anywhere in the code. -/
theorem evaluator_total_at_zero_delta_psi :
    calculate_w18 0 0 0 0 1 = (10 : ℝ) ^ (-(8.27 : ℝ)) ∧
      0 < calculate_w18 0 0 0 0 1 ∧
      aashto_equation 0 5 0 0 0 1 = (10 : ℝ) ^ (-(8.27 : ℝ)) - 5 * 1000000 := by
  have h : (0 : ℝ) * 0 + (9.36 * Real.logb 10 (0 + 1) - 0.20)
      + Real.logb 10 (0 / (4.2 - 1.5)) / (0.40 + 1094 / ((0 : ℝ) + 1) ^ (5.19 : ℝ))
      + (2.32 * Real.logb 10 1 - 8.07) = -(8.27 : ℝ) := by
    rw [zero_div, Real.logb_zero, Real.logb_one]
    norm_num [Real.one_rpow, Real.logb_one]
  refine ⟨?_, calculate_w18_pos 0 0 0 0 1, ?_⟩
  · unfold calculate_w18
    rw [h]
  · unfold aashto_equation
    rw [h]

/-- C8: the capacity checker computes
`provided_sn = a1*d1 + a2*d2*m2 + a3*d3*m3` (no drainage multiplier on the
surface term), judges adequacy by `provided_sn ≥ required_sn`, and on the
spec's example layers yields `3.32`. -/
theorem sn_provided_formula_spec :
    (∀ a1 d1 a2 d2 m2 a3 d3 m3 : ℝ,
        sn_provided a1 d1 a2 d2 m2 a3 d3 m3 = a1 * d1 + a2 * d2 * m2 + a3 * d3 * m3) ∧
      sn_provided 0.40 4.0 0.14 6.0 1.0 0.11 8.0 1.0 = 3.32 ∧
      (∀ provided required : ℝ, design_adequate provided required ↔ provided ≥ required) := by
  refine ⟨fun _ _ _ _ _ _ _ _ => rfl, ?_, fun _ _ => Iff.rfl⟩
  unfold sn_provided
  norm_num

/-- C9: at a section with all three thicknesses zero (admissible layer specs:
positive coefficients, non-negative thicknesses) the provided SN is `0`, and
the percentage column is produced by bare division with no explicit
divide-by-zero signal.  In the real-number model division by zero silently
yields `0`; the Python source would raise an unhandled `ZeroDivisionError` at
line 258 — in neither reading is an explicit error condition signalled. -/
theorem contribution_percentages_at_zero :
    sn_provided 0.40 0 0.14 0 1.0 0.11 0 1.0 = 0 ∧
      contribution_percentages 0.40 0 0.14 0 1.0 0.11 0 1.0 = [0, 0, 0] := by
  constructor
  · unfold sn_provided; norm_num
  · unfold contribution_percentages sn_provided
    norm_num

/-- `log10 16 < 3/2`, i.e. `16 < 10^(3/2)`, i.e. `16^2 < 10^3`. -/
theorem logb_ten_sixteen_lt : Real.logb 10 16 < 3 / 2 := by
  rw [Real.logb_lt_iff_lt_rpow (by norm_num : (1:ℝ) < 10) (by norm_num : (0:ℝ) < 16)]
  have hsq : ((10 : ℝ) ^ ((3:ℝ)/2)) ^ (2 : ℕ) = 1000 := by
    rw [← Real.rpow_natCast ((10:ℝ) ^ ((3:ℝ)/2)) 2,
        ← Real.rpow_mul (by norm_num : (0:ℝ) ≤ 10),
        show (3:ℝ)/2 * ((2:ℕ):ℝ) = ((3:ℕ):ℝ) by push_cast; ring,
        Real.rpow_natCast]
    norm_num
  refine lt_of_pow_lt_pow_left₀ 2 (Real.rpow_pos_of_pos (by norm_num) _).le ?_
  rw [hsq]
  norm_num

/-- With `zr = 0`, `so = 0`, `delta_psi = 2.7`, `mr = 1` the evaluator is
below `10^6` on the whole initial bracket `[0.1, 15]` (its exponent is
`9.36 * log10(sn+1) - 8.27 < 9.36 * 1.5 - 8.27 < 6`). -/
theorem calculate_w18_lt_million (x : ℝ) (hx1 : 0.1 ≤ x) (hx2 : x ≤ 15) :
    calculate_w18 x 0 0 2.7 1 < 1000000 := by
  have hx0 : (0:ℝ) < x + 1 := by linarith
  have hlogb : Real.logb 10 (x + 1) ≤ Real.logb 10 16 :=
    Real.logb_le_logb_of_le (by norm_num) hx0 (by linarith)
  have hlt : Real.logb 10 (x + 1) < 3 / 2 := lt_of_le_of_lt hlogb logb_ten_sixteen_lt
  have hexp : 0 * 0 + (9.36 * Real.logb 10 (x + 1) - 0.20)
      + Real.logb 10 (2.7 / (4.2 - 1.5)) / (0.40 + 1094 / (x + 1) ^ (5.19 : ℝ))
      + (2.32 * Real.logb 10 1 - 8.07) < 6 := by
    rw [show (2.7 : ℝ) / (4.2 - 1.5) = 1 by norm_num, Real.logb_one, zero_div]
    linarith
  calc calculate_w18 x 0 0 2.7 1 < (10:ℝ) ^ (6:ℝ) := by
        unfold calculate_w18
        exact Real.rpow_lt_rpow_of_exponent_lt (by norm_num) hexp
    _ = 1000000 := by
        rw [show (6:ℝ) = ((6:ℕ):ℝ) by norm_num, Real.rpow_natCast]
        norm_num

/-- C1 (failing part): at `w18_target = 10` (millions), `zr = 0`, `so = 0`,
`delta_psi = 2.7`, `mr = 1`, tolerance `0.01`, `max_iterations = 100`, the
loop never meets the tolerance (the equation tops out below `10^6 < 0.99·10^7`
on the bracket) and exhausts all 100 iterations; the code then returns the
bare last midpoint — `solve_for_sn` yields a plain `some` value carrying no
`converged = false` marking, indistinguishable in shape from a converged
return. -/
theorem solve_for_sn_unmarked_exhaustion :
    (solve_for_snI 10 0 0 2.7 1 0.01 100).map Prod.snd = some BisectExit.maxIter ∧
      (solve_for_sn 10 0 0 2.7 1 0.01 100).isSome = true := by
  obtain ⟨v, hv⟩ := bisectLoop_exhausts (fun sn => calculate_w18 sn 0 0 2.7 1)
      (10 * 1000000) 0.01 15 (by norm_num) 99 0.1 (by norm_num)
      (fun x hx1 hx2 => by
        show calculate_w18 x 0 0 2.7 1 < 10 * 1000000 - 10 * 1000000 * 0.01
        linarith [calculate_w18_lt_million x hx1 hx2])
  constructor
  · unfold solve_for_snI
    rw [show (100:ℕ) = 99 + 1 from rfl, hv]
    rfl
  · unfold solve_for_sn solve_for_snI
    rw [show (100:ℕ) = 99 + 1 from rfl, hv]
    rfl

/-- C5 (failing part): with `w18_target = 1000` million (`zr = 0`, `so = 0`,
`delta_psi = 2.7`, `mr = 1`) the equation stays far below the target at both
ends of the initial bracket `[0.1, 15]` — no sign change, no root in range —
yet the solver performs no precondition check: it exhausts its iterations and
returns a plain midpoint value instead of reporting a `NoRootInBracket`
condition. -/
theorem solve_for_sn_no_root_best_effort :
    calculate_w18 0.1 0 0 2.7 1 < 1000 * 1000000 ∧
      calculate_w18 15 0 0 2.7 1 < 1000 * 1000000 ∧
      (solve_for_snI 1000 0 0 2.7 1 0.01 100).map Prod.snd = some BisectExit.maxIter ∧
      (solve_for_sn 1000 0 0 2.7 1 0.01 100).isSome = true := by
  obtain ⟨v, hv⟩ := bisectLoop_exhausts (fun sn => calculate_w18 sn 0 0 2.7 1)
      (1000 * 1000000) 0.01 15 (by norm_num) 99 0.1 (by norm_num)
      (fun x hx1 hx2 => by
        show calculate_w18 x 0 0 2.7 1 < 1000 * 1000000 - 1000 * 1000000 * 0.01
        linarith [calculate_w18_lt_million x hx1 hx2])
  refine ⟨by linarith [calculate_w18_lt_million 0.1 (le_refl _) (by norm_num)],
    by linarith [calculate_w18_lt_million 15 (by norm_num) (le_refl _)], ?_, ?_⟩
  · unfold solve_for_snI
    rw [show (100:ℕ) = 99 + 1 from rfl, hv]
    rfl
  · unfold solve_for_sn solve_for_snI
    rw [show (100:ℕ) = 99 + 1 from rfl, hv]
    rfl

/-- C3: whenever the solver exits through its convergence return, evaluating
the design equation at the returned structural number reproduces the target
(in raw units, `w18_target * 1e6`) within the configured relative
tolerance. -/
theorem solve_for_sn_roundtrip (w18_target zr so delta_psi mr tolerance : ℝ)
    (max_iterations : ℕ) (v : ℝ)
    (h : solve_for_snI w18_target zr so delta_psi mr tolerance max_iterations =
      some (v, BisectExit.converged)) :
    |calculate_w18 v zr so delta_psi mr - w18_target * 1000000| <
      w18_target * 1000000 * tolerance := by
  have h2 : bisectLoop (fun sn => calculate_w18 sn zr so delta_psi mr)
      (w18_target * 1000000) tolerance max_iterations 0.1 15 =
      some (v, BisectExit.converged) := h
  exact bisectLoop_converged_sound (fun sn => calculate_w18 sn zr so delta_psi mr)
    (w18_target * 1000000) tolerance max_iterations 0.1 15 v h2

/-- Witness for C3: with target traffic `calculate_w18 7.55 0 0 2.7 1 / 1e6`
million ESALs the solver converges at the very first midpoint `7.55`. -/
theorem solve_for_sn_roundtrip_witness :
    |calculate_w18 7.55 0 0 2.7 1 -
        calculate_w18 7.55 0 0 2.7 1 / 1000000 * 1000000| <
      calculate_w18 7.55 0 0 2.7 1 / 1000000 * 1000000 * 0.01 := by
  have hT : calculate_w18 7.55 0 0 2.7 1 / 1000000 * 1000000
      = calculate_w18 7.55 0 0 2.7 1 := div_mul_cancel₀ _ (by norm_num)
  refine solve_for_sn_roundtrip (calculate_w18 7.55 0 0 2.7 1 / 1000000)
    0 0 2.7 1 0.01 100 7.55 ?_
  unfold solve_for_snI
  rw [show (100:ℕ) = 99 + 1 from rfl, bisectLoop_succ]
  rw [show ((0.1:ℝ) + 15) / 2 = 7.55 by norm_num]
  rw [hT, sub_self, abs_zero, if_pos]
  exact mul_pos (calculate_w18_pos 7.55 0 0 2.7 1) (by norm_num)

/-- At `delta_psi = 2.7e-6` the serviceability term of the exponent is
`-6 / (0.40 + 1094/(sn+1)^5.19)`; as `sn` grows from `0.1` to `9` it falls
from about `-0.01` to below `-14.6`, overwhelming the `9.36·log10(sn+1)`
gain, so the evaluator is larger at `sn = 0.1` than at `sn = 9`. -/
theorem calculate_w18_decreasing_spot :
    calculate_w18 9 0 0 (27 / 10000000) 1 < calculate_w18 0.1 0 0 (27 / 10000000) 1 := by
  have h6 : Real.logb 10 ((27 / 10000000 : ℝ) / (4.2 - 1.5)) = -6 := by
    rw [show (27 / 10000000 : ℝ) / (4.2 - 1.5) = ((10:ℝ) ^ (6:ℕ))⁻¹ by norm_num,
        ← Real.rpow_natCast 10 6, ← Real.rpow_neg (by norm_num : (0:ℝ) ≤ 10),
        Real.logb_rpow (by norm_num) (by norm_num)]
    push_cast
    ring
  unfold calculate_w18
  rw [h6, show (9:ℝ) + 1 = 10 by norm_num,
      Real.logb_self_eq_one (by norm_num : (1:ℝ) < 10), Real.logb_one]
  refine Real.rpow_lt_rpow_of_exponent_lt (by norm_num) ?_
  have hApos : (0:ℝ) < ((0.1:ℝ) + 1) ^ (5.19:ℝ) := Real.rpow_pos_of_pos (by norm_num) _
  have hA : ((0.1:ℝ) + 1) ^ (5.19:ℝ) ≤ 1.771561 := by
    have h := Real.rpow_le_rpow_of_exponent_le (show (1:ℝ) ≤ 0.1 + 1 by norm_num)
      (show (5.19:ℝ) ≤ ((6:ℕ):ℝ) by push_cast; norm_num)
    rw [Real.rpow_natCast] at h
    calc ((0.1:ℝ) + 1) ^ (5.19:ℝ) ≤ ((0.1:ℝ) + 1) ^ (6:ℕ) := h
      _ = 1.771561 := by norm_num
  have hg1 : (617:ℝ) ≤ 0.40 + 1094 / ((0.1:ℝ) + 1) ^ (5.19:ℝ) := by
    have h := div_le_div_of_nonneg_left (show (0:ℝ) ≤ 1094 by norm_num) hApos hA
    have hc : (616.6:ℝ) ≤ 1094 / 1.771561 := by norm_num
    linarith
  have hg1pos : (0:ℝ) < 0.40 + 1094 / ((0.1:ℝ) + 1) ^ (5.19:ℝ) := by linarith
  have hterm1 : -(0.01:ℝ) ≤ -6 / (0.40 + 1094 / ((0.1:ℝ) + 1) ^ (5.19:ℝ)) := by
    rw [le_div_iff₀ hg1pos]
    nlinarith
  have hlogb11 : 0 ≤ Real.logb 10 ((0.1:ℝ) + 1) :=
    Real.logb_nonneg (by norm_num) (by norm_num)
  have hBpos : (0:ℝ) < (10:ℝ) ^ (5.19:ℝ) := Real.rpow_pos_of_pos (by norm_num) _
  have hB : (100000:ℝ) ≤ (10:ℝ) ^ (5.19:ℝ) := by
    have h := Real.rpow_le_rpow_of_exponent_le (show (1:ℝ) ≤ 10 by norm_num)
      (show ((5:ℕ):ℝ) ≤ 5.19 by push_cast; norm_num)
    rw [Real.rpow_natCast] at h
    calc (100000:ℝ) = 10 ^ (5:ℕ) := by norm_num
      _ ≤ _ := h
  have hdiv9 : 1094 / (10:ℝ) ^ (5.19:ℝ) ≤ 1094 / 100000 :=
    div_le_div_of_nonneg_left (by norm_num) (by norm_num) hB
  have hdiv9pos : (0:ℝ) < 1094 / (10:ℝ) ^ (5.19:ℝ) :=
    div_pos (by norm_num) hBpos
  have hg9pos : (0:ℝ) < 0.40 + 1094 / (10:ℝ) ^ (5.19:ℝ) := by linarith
  have hterm9 : -6 / (0.40 + 1094 / (10:ℝ) ^ (5.19:ℝ)) ≤ -14.6 := by
    rw [div_le_iff₀ hg9pos]
    nlinarith
  linarith

/-- C4 (counterexample): there are valid parameters — `zr = 0`, `so = 0`,
`delta_psi = 2.7·10⁻⁶ > 0`, `mr = 1 > 0` — at which the evaluator is not
strictly increasing in `sn` over `[0.1, 15]`; it decreases between `0.1`
and `9`. -/
theorem calculate_w18_not_strictMonoOn :
    ¬ StrictMonoOn (fun sn => calculate_w18 sn 0 0 (27 / 10000000) 1)
      (Set.Icc (0.1:ℝ) 15) := by
  intro hmono
  have h : calculate_w18 0.1 0 0 (27 / 10000000) 1 < calculate_w18 9 0 0 (27 / 10000000) 1 :=
    hmono ⟨le_refl _, by norm_num⟩ ⟨by norm_num, by norm_num⟩ (by norm_num)
  linarith [calculate_w18_decreasing_spot]

/-- Derivative, at any `x` with `x + 1 > 0`, of the `sn`-dependent part of the
design-equation exponent (constants `c1`, `c2` and numerator `L` are the
`sn`-independent pieces).  The `log10` term contributes `9.36/((x+1)·ln 10)`
and the serviceability term `L/(0.40 + 1094/(x+1)^5.19)` contributes
`L·5677.86/((x+1)·P·G²)` with `P = (x+1)^5.19`, `G = 0.40 + 1094/P` and
`5677.86 = 1094·5.19`. -/
theorem aashto_exponent_hasDerivAt (c1 L c2 x : ℝ) (hx : 0 < x + 1) :
    HasDerivAt (fun s : ℝ => c1 + (9.36 * Real.logb 10 (s + 1) - 0.20)
        + L / (0.40 + 1094 / (s + 1) ^ (5.19 : ℝ)) + c2)
      (9.36 / ((x + 1) * Real.log 10)
        + L * 5677.86 / ((x + 1) * (x + 1) ^ (5.19 : ℝ)
            * (0.40 + 1094 / (x + 1) ^ (5.19 : ℝ)) ^ 2)) x := by
  have hne : x + 1 ≠ 0 := ne_of_gt hx
  have hP : (0:ℝ) < (x + 1) ^ (5.19 : ℝ) := Real.rpow_pos_of_pos hx _
  have hq : (0:ℝ) < 1094 / (x + 1) ^ (5.19 : ℝ) := div_pos (by norm_num) hP
  have hG : (0:ℝ) < 0.40 + 1094 / (x + 1) ^ (5.19 : ℝ) := by linarith
  have hT : (0:ℝ) < Real.log 10 := Real.log_pos (by norm_num)
  have h1 : HasDerivAt (fun s : ℝ => s + 1) 1 x := (hasDerivAt_id x).add_const 1
  have hlogd : HasDerivAt (fun s : ℝ => 9.36 * Real.logb 10 (s + 1) - 0.20)
      (9.36 * (1 / (x + 1) / Real.log 10)) x :=
    (((h1.log hne).div_const (Real.log 10)).const_mul 9.36).sub_const 0.20
  have hR : HasDerivAt (fun s : ℝ => (s + 1) ^ (5.19 : ℝ))
      (1 * 5.19 * (x + 1) ^ ((5.19 : ℝ) - 1)) x := h1.rpow_const (Or.inl hne)
  have hg : HasDerivAt (fun s : ℝ => 0.40 + 1094 / (s + 1) ^ (5.19 : ℝ))
      ((0 * (x + 1) ^ (5.19 : ℝ) - 1094 * (1 * 5.19 * (x + 1) ^ ((5.19 : ℝ) - 1)))
        / ((x + 1) ^ (5.19 : ℝ)) ^ 2) x :=
    ((hasDerivAt_const x (1094:ℝ)).div hR (ne_of_gt hP)).const_add 0.40
  have hu : HasDerivAt (fun s : ℝ => L / (0.40 + 1094 / (s + 1) ^ (5.19 : ℝ)))
      ((0 * (0.40 + 1094 / (x + 1) ^ (5.19 : ℝ))
          - L * ((0 * (x + 1) ^ (5.19 : ℝ) - 1094 * (1 * 5.19 * (x + 1) ^ ((5.19 : ℝ) - 1)))
            / ((x + 1) ^ (5.19 : ℝ)) ^ 2))
        / (0.40 + 1094 / (x + 1) ^ (5.19 : ℝ)) ^ 2) x :=
    (hasDerivAt_const x L).div hg (ne_of_gt hG)
  have hsum := ((hlogd.const_add c1).add hu).add_const c2
  have heq : 9.36 * (1 / (x + 1) / Real.log 10)
      + (0 * (0.40 + 1094 / (x + 1) ^ (5.19 : ℝ))
          - L * ((0 * (x + 1) ^ (5.19 : ℝ) - 1094 * (1 * 5.19 * (x + 1) ^ ((5.19 : ℝ) - 1)))
            / ((x + 1) ^ (5.19 : ℝ)) ^ 2))
        / (0.40 + 1094 / (x + 1) ^ (5.19 : ℝ)) ^ 2
      = 9.36 / ((x + 1) * Real.log 10)
        + L * 5677.86 / ((x + 1) * (x + 1) ^ (5.19 : ℝ)
            * (0.40 + 1094 / (x + 1) ^ (5.19 : ℝ)) ^ 2) := by
    rw [Real.rpow_sub hx, Real.rpow_one]
    field_simp
    ring
  rw [← heq]
  exact hsum

/-- Abstract positivity of the exponent derivative
`9.36/(a·T) + L·5677.86/(a·P·u²)`: with `a, P, T, u > 0`, the AM-GM fact
`P·u² ≥ 1750.4 = 1.6·1094` and the numerator bound `(−L)·T < 9.36·1.6/5.19`,
the positive `log10` slope dominates (`5677.86·(9.36·1.6/5.19) = 16383.744 =
9.36·1750.4`). -/
theorem deriv_pos_aux (L a P T u : ℝ) (ha : 0 < a) (hP : 0 < P) (hT : 0 < T)
    (hu : 0 < u) (hPG : 1750.4 ≤ P * u ^ 2)
    (hMT : -L * T < 9.36 * 1.6 / 5.19) :
    0 < 9.36 / (a * T) + L * 5677.86 / (a * P * u ^ 2) := by
  have hfirst : (0:ℝ) < 9.36 / (a * T) := div_pos (by norm_num) (mul_pos ha hT)
  have hden : (0:ℝ) < a * P * u ^ 2 := mul_pos (mul_pos ha hP) (pow_pos hu 2)
  rcases le_or_lt 0 L with hL | hL
  · have hsecond : (0:ℝ) ≤ L * 5677.86 / (a * P * u ^ 2) :=
      div_nonneg (mul_nonneg hL (by norm_num)) hden.le
    linarith
  · have hstep : 5677.86 * (-L * T) < 16383.744 := by linarith
    have hstep2 : (16383.744:ℝ) ≤ 9.36 * (P * u ^ 2) := by linarith
    have hBA : -L * 5677.86 / (a * P * u ^ 2) < 9.36 / (a * T) := by
      rw [div_lt_div_iff₀ hden (mul_pos ha hT)]
      nlinarith [mul_pos ha (sub_pos.mpr (lt_of_lt_of_le hstep hstep2))]
    have hkey : -(L * 5677.86 / (a * P * u ^ 2)) = -L * 5677.86 / (a * P * u ^ 2) := by
      ring
    linarith

set_option maxHeartbeats 1000000 in
/-- C4 (amended): for any `zr`, `so`, any `mr > 0`, and any serviceability
drop above the threshold `delta_psi > 2.7·exp(−9.36·1.6/5.19) ≈ 0.1507`, the
evaluator is strictly increasing in `sn` on `[0.1, 15]`.  The exponent's
derivative is `9.36/((sn+1)·ln 10) + L·1094·5.19/((sn+1)·P·G²)` with
`L = log10(delta_psi/2.7)`, `P = (sn+1)^5.19`, `G = 0.40 + 1094/P`; by the
AM-GM bound `P·G² = (0.4P+1094)²/P ≥ 1.6·1094` it is positive exactly under
the stated threshold, which covers every spec scenario (`delta_psi = 2.0` in
particular).  Some restriction is necessary: see the counterexample at
`delta_psi = 2.7·10⁻⁶`. -/
theorem calculate_w18_strictMonoOn (zr so delta_psi mr : ℝ)
    (hdpsi : 2.7 * Real.exp (-(9.36 * 1.6 / 5.19)) < delta_psi) (hmr : 0 < mr) :
    StrictMonoOn (fun sn => calculate_w18 sn zr so delta_psi mr) (Set.Icc (0.1:ℝ) 15) := by
  have hT : (0:ℝ) < Real.log 10 := Real.log_pos (by norm_num)
  have hdpos : 0 < delta_psi := lt_trans (by positivity) hdpsi
  have hdiv_pos : 0 < delta_psi / (4.2 - 1.5) := div_pos hdpos (by norm_num)
  have hLkey : -(9.36 * 1.6 / 5.19) < Real.log (delta_psi / (4.2 - 1.5)) := by
    rw [Real.lt_log_iff_exp_lt hdiv_pos, lt_div_iff₀ (by norm_num : (0:ℝ) < 4.2 - 1.5)]
    linarith
  have hLT : Real.logb 10 (delta_psi / (4.2 - 1.5)) * Real.log 10
      = Real.log (delta_psi / (4.2 - 1.5)) := by
    rw [Real.logb, div_mul_cancel₀ _ (ne_of_gt hT)]
  have hmono : StrictMonoOn (fun s : ℝ => zr * so + (9.36 * Real.logb 10 (s + 1) - 0.20)
      + Real.logb 10 (delta_psi / (4.2 - 1.5)) / (0.40 + 1094 / (s + 1) ^ (5.19 : ℝ))
      + (2.32 * Real.logb 10 mr - 8.07)) (Set.Icc (0.1:ℝ) 15) := by
    apply strictMonoOn_of_deriv_pos (convex_Icc _ _)
    · intro y hy
      rw [Set.mem_Icc] at hy
      have hyp : (0:ℝ) < y + 1 := by linarith [hy.1]
      exact (aashto_exponent_hasDerivAt (zr * so)
        (Real.logb 10 (delta_psi / (4.2 - 1.5)))
        (2.32 * Real.logb 10 mr - 8.07) y hyp).continuousAt.continuousWithinAt
    · intro y hy
      rw [interior_Icc, Set.mem_Ioo] at hy
      have hyp : (0:ℝ) < y + 1 := by linarith [hy.1]
      rw [(aashto_exponent_hasDerivAt (zr * so)
        (Real.logb 10 (delta_psi / (4.2 - 1.5)))
        (2.32 * Real.logb 10 mr - 8.07) y hyp).deriv]
      have hP : (0:ℝ) < (y + 1) ^ (5.19 : ℝ) := Real.rpow_pos_of_pos hyp _
      have hq : (0:ℝ) < 1094 / (y + 1) ^ (5.19 : ℝ) := div_pos (by norm_num) hP
      have hGpos : (0:ℝ) < 0.40 + 1094 / (y + 1) ^ (5.19 : ℝ) := by linarith
      have hGP : (0.40 + 1094 / (y + 1) ^ (5.19 : ℝ)) * (y + 1) ^ (5.19 : ℝ)
          = 0.40 * (y + 1) ^ (5.19 : ℝ) + 1094 := by
        rw [add_mul, div_mul_cancel₀ _ (ne_of_gt hP)]
      have hsq : 1750.4 * (y + 1) ^ (5.19 : ℝ)
          ≤ (0.40 * (y + 1) ^ (5.19 : ℝ) + 1094) ^ 2 := by
        nlinarith [sq_nonneg (0.40 * (y + 1) ^ (5.19 : ℝ) - 1094)]
      have hPG : (1750.4:ℝ) ≤ (y + 1) ^ (5.19 : ℝ)
          * (0.40 + 1094 / (y + 1) ^ (5.19 : ℝ)) ^ 2 := by
        rw [← mul_le_mul_right hP]
        calc 1750.4 * (y + 1) ^ (5.19 : ℝ)
            ≤ (0.40 * (y + 1) ^ (5.19 : ℝ) + 1094) ^ 2 := hsq
          _ = ((0.40 + 1094 / (y + 1) ^ (5.19 : ℝ)) * (y + 1) ^ (5.19 : ℝ)) ^ 2 := by
              rw [hGP]
          _ = (y + 1) ^ (5.19 : ℝ) * (0.40 + 1094 / (y + 1) ^ (5.19 : ℝ)) ^ 2
              * (y + 1) ^ (5.19 : ℝ) := by ring
      have hMT : -(Real.logb 10 (delta_psi / (4.2 - 1.5))) * Real.log 10
          < 9.36 * 1.6 / 5.19 := by linarith [hLT, hLkey]
      exact deriv_pos_aux (Real.logb 10 (delta_psi / (4.2 - 1.5))) (y + 1)
        ((y + 1) ^ (5.19 : ℝ)) (Real.log 10)
        (0.40 + 1094 / (y + 1) ^ (5.19 : ℝ)) hyp hP hT hGpos hPG hMT
  intro s hs t ht hst
  show calculate_w18 s zr so delta_psi mr < calculate_w18 t zr so delta_psi mr
  unfold calculate_w18
  exact Real.rpow_lt_rpow_of_exponent_lt (by norm_num) (hmono hs ht hst)

/-- Witness for the amended C4 at `zr = 0`, `so = 0`, `delta_psi = 2` (the
spec's flagship scenario value), `mr = 1`: `2` is above the threshold since
`2.7·exp(−2.885…) ≤ 2.7·exp(−1) < 2.7·0.37 < 2`. -/
theorem calculate_w18_strictMonoOn_witness :
    StrictMonoOn (fun sn => calculate_w18 sn 0 0 2 1) (Set.Icc (0.1:ℝ) 15) := by
  refine calculate_w18_strictMonoOn 0 0 2 1 ?_ (by norm_num)
  have h1 : Real.exp (-(9.36 * 1.6 / 5.19)) ≤ Real.exp (-1) :=
    Real.exp_le_exp.mpr (by norm_num)
  have h0 : Real.exp (-1) * Real.exp 1 = 1 := by
    rw [← Real.exp_add, show (-1:ℝ) + 1 = 0 by norm_num, Real.exp_zero]
  have h4 : Real.exp (-1) < 0.37 := by
    nlinarith [Real.exp_one_gt_d9, h0, Real.exp_pos (-1)]
  linarith [h1, h4]

end PavementSN
